import Mathlib

/-!
# Catalog synchronisation (`productFunctions.js`): pricing, pagination, retry and reconciliation

A shallow embedding of the functions of `src/productFunctions.js`.

* JavaScript numbers are IEEE-754 binary64 values.  A finite double is held as the rational
  number it denotes, and every arithmetic operation is the exact operation followed by
  `fl`, the round-to-nearest, ties-to-even rounding onto the binary64 grid.
* Network calls are answered from explicit response scripts: a loop that issues one request
  per iteration consumes one scripted answer per iteration, and the requests it issues are
  returned next to its result.
-/

namespace ProductFunctions

/-! ## JavaScript numbers -/

/-- Round a rational to the nearest integer, a tie going to the even neighbour. -/
def roundTiesEven (x : ℚ) : ℤ :=
  if x - ⌊x⌋ < 1 / 2 then ⌊x⌋
  else if 1 / 2 < x - ⌊x⌋ then ⌊x⌋ + 1
  else if ⌊x⌋ % 2 = 0 then ⌊x⌋
  else ⌊x⌋ + 1

/-- Binary exponent used to round `q`: the `e` with `2 ^ e ≤ |q| < 2 ^ (e + 1)`, held at
`-1022` below the normal range (subnormal numbers share the spacing `2 ^ (-1074)`). -/
def binExp (q : ℚ) : ℤ := max (Int.log 2 |q|) (-1022)

/-- Rounding onto the binary64 grid: the double nearest to the rational `q`, ties to even,
with 53 significant bits.  The model covers the finite range; a result of magnitude
`2 ^ 1024` or more stands for what IEEE arithmetic turns into `Infinity`. -/
def fl (q : ℚ) : ℚ :=
  if q = 0 then 0 else (roundTiesEven (q / 2 ^ (binExp q - 52)) : ℚ) * 2 ^ (binExp q - 52)

/-- A rational that is a binary64 value: rounding leaves it unchanged. -/
def IsDouble (q : ℚ) : Prop := fl q = q

instance (q : ℚ) : Decidable (IsDouble q) := by unfold IsDouble; infer_instance

/-- JavaScript `a + b` on finite doubles. -/
def jsAdd (a b : ℚ) : ℚ := fl (a + b)

/-- JavaScript `a * b` on finite doubles. -/
def jsMul (a b : ℚ) : ℚ := fl (a * b)

/-- JavaScript `a / b` on finite doubles, `b` nonzero. -/
def jsDiv (a b : ℚ) : ℚ := fl (a / b)

/-- JavaScript `Math.ceil`: the least integer not below `x` (exact on doubles). -/
def mathCeil (x : ℚ) : ℚ := (⌈x⌉ : ℤ)

/-- JavaScript `x.toFixed(2)` for `|x| < 1e21`, held as the signed number of cents the
two-decimal string denotes: the integer `n` with `n / 100` nearest to the exact value of
`x`, the larger `n` on a tie. -/
def toFixed2 (x : ℚ) : ℤ :=
  if x < 0 then -⌊(-x) * 100 + 1 / 2⌋ else ⌊x * 100 + 1 / 2⌋

/-! ## Pricing (`createOrUpdateShopifyProduct`, lines 186-194) -/

/-- The markup tier chosen for a net price (lines 187-190).  The literals `24.99` and
`50.00` are the doubles nearest to them. -/
def markupPercentage (netPrice : ℚ) : ℚ :=
  if netPrice ≤ fl (2499 / 100) then 30
  else if netPrice ≤ fl 50 then 25
  else 20

/-- Line 191:
`Math.ceil((netPrice * (1 + markupPercentage / 100)) * 100) / 100`. -/
def finalPrice (netPrice : ℚ) : ℚ :=
  jsDiv (mathCeil (jsMul (jsMul netPrice (jsAdd 1 (jsDiv (markupPercentage netPrice) 100))) 100)) 100

/-- Line 194: `retailPrice.toFixed(2)`, in cents. -/
def compareAtPrice (retailPrice : ℚ) : ℤ := toFixed2 retailPrice

/-! ## Strings -/

/-- JavaScript truthiness of a value that is a string, `null` or `undefined`: only a
non-empty string is truthy. -/
def truthy : Option String → Bool
  | some s => s ≠ ""
  | none => false

/-- JavaScript `s.endsWith(suffix)`. -/
def endsWith (s suffix : String) : Bool := suffix.data.isSuffixOf s.data

/-- The characters matched by `\s` in a JavaScript regular expression, by code point. -/
def isRegexSpace (c : Char) : Bool :=
  c.toNat ∈ [9, 10, 11, 12, 13, 32, 160, 5760, 8232, 8233, 8239, 8287, 12288, 65279]
    || (8192 ≤ c.toNat && c.toNat ≤ 8202)

/-- The literal tail `rel="next"` of the pattern. -/
def relNext : List Char :=
  ['r', 'e', 'l', '=', Char.ofNat 34, 'n', 'e', 'x', 't', Char.ofNat 34]

/-- One attempt of the pattern `<([^>]+)>;\s*rel="next"` anchored at the head of the input:
`<`, the longest run of characters other than `>` (at least one), `>`, `;`, any white
space, then `rel="next"`.  Both repetitions are followed by a character they exclude, so
the greedy choice is the only one that can succeed.  Returns the captured group. -/
def matchNextHere : List Char → Option (List Char)
  | '<' :: rest =>
    if rest.takeWhile (fun c => c != '>') = [] then none
    else
      match rest.dropWhile (fun c => c != '>') with
      | '>' :: ';' :: tail =>
        if relNext.isPrefixOf (tail.dropWhile isRegexSpace) then
          some (rest.takeWhile (fun c => c != '>'))
        else none
      | _ => none
  | _ => none

/-- The capture group of `linkHeader.match(/<([^>]+)>;\s*rel="next"/)`: the leftmost
position at which the pattern matches (lines 106 and 152). -/
def matchNext : List Char → Option (List Char)
  | [] => none
  | c :: cs =>
    match matchNextHere (c :: cs) with
    | some target => some target
    | none => matchNext cs

/-! ## Answers of the two services -/

/-- A variant of a storefront product, as the listing returns it; `sku` may be `null`. -/
structure Variant where
  sku : Option String
deriving DecidableEq, Repr

/-- A storefront product of a listing page (`fields=id,variants`). -/
structure ShopifyProduct where
  id : Nat
  variants : List Variant
deriving DecidableEq, Repr

/-- Answer of the storefront to a page request: a page of products with its `link`
header, or a failure with the status of `error.response` (absent when there is none). -/
inductive ShopifyResponse where
  | ok (products : List ShopifyProduct) (link : Option String)
  | error (status : Option Nat)
deriving DecidableEq, Repr

/-- Outcome of `new URL(target).searchParams.get('page_info')`: the constructor throws, or
the parameter is read (`null` when the query has none).  The URL parser belongs to the
platform; the functions below take it as the argument `urlPageInfo`. -/
inductive UrlResult where
  | threw
  | pageInfo (value : Option String)
deriving DecidableEq, Repr

/-- A record of the distributor list endpoint; `Item` may be missing. -/
structure CosmoItem where
  Item : Option String
deriving DecidableEq, Repr

/-- Answer of the distributor list endpoint: `{ Results, NextUrl }`, or anything that makes
the body of the `try` throw. -/
inductive CosmoListResponse where
  | ok (Results : List CosmoItem) (NextUrl : Option String)
  | error
deriving DecidableEq, Repr

/-- The detail record of one item.  `Net` and `Retail` hold the finite doubles that
`parseFloat` returns for the two price fields. -/
structure Detail where
  Item : String
  Net : ℚ
  Retail : ℚ
  Desc : String
  Desc2 : Option String
  Desc3 : Option String
  UPC : String
  Size : String
  Designer : String
  Fragrance : Option String
  Product : String
  ProductLine : Option String
  ProductClass : Option String
  Available : ℤ
  Weight : Option String
  ImageURL : Option String
deriving DecidableEq, Repr

/-- Answer of the distributor detail endpoint: the record, or a failure with
`error.response?.status`. -/
inductive DetailResponse where
  | ok (data : Detail)
  | error (status : Option Nat)
deriving DecidableEq, Repr

/-- What a loop over scripted answers did: the requests it issued, in order, and its return
value; `none` when the script ran out while the loop was still waiting for an answer. -/
structure FetchOutcome (α : Type) where
  requests : List String
  result : Option α
deriving DecidableEq, Repr

/-- Put one more request in front of an outcome. -/
def FetchOutcome.after {α : Type} (url : String) (o : FetchOutcome α) : FetchOutcome α :=
  { o with requests := url :: o.requests }

/-! ## `fetchAllCosmopolitanProducts` (lines 32-50) -/

/-- The filter of line 39: `product.Item && !product.Item.endsWith("-A")`. -/
def keepItem (product : CosmoItem) : Bool :=
  match product.Item with
  | some code => code ≠ "" && !endsWith code "-A"
  | none => false

/-- The `do ... while (nextPageUrl)` loop of lines 36-46 over the scripted answers. -/
def cosmoPageLoop : List CosmoListResponse → List CosmoItem → String →
    FetchOutcome (List CosmoItem)
  | [], _, nextPageUrl => ⟨[nextPageUrl], none⟩
  | .error :: _, allProducts, nextPageUrl => ⟨[nextPageUrl], some allProducts⟩
  | .ok results nextUrl :: rest, allProducts, nextPageUrl =>
    if truthy nextUrl then
      (cosmoPageLoop rest (allProducts ++ results.filter keepItem)
        ("https://" ++ nextUrl.getD "")).after nextPageUrl
    else ⟨[nextPageUrl], some (allProducts ++ results.filter keepItem)⟩

/-- The function `fetchAllCosmopolitanProducts`. -/
def fetchAllCosmopolitanProducts (script : List CosmoListResponse) :
    FetchOutcome (List CosmoItem) :=
  cosmoPageLoop script [] "https://api.cosmopolitanusa.com/v1/products"

/-! ## `fetchDetailedCosmopolitanProduct` (lines 62-82) -/

/-- Value returned by `fetchDetailedCosmopolitanProduct`; `undefined` is what falling out
of the `for` loop would return. -/
inductive DetailResult where
  | data (d : Detail)
  | null
  | undefined
deriving DecidableEq, Repr

/-- Line 63. -/
def maxRetries : Nat := 3

/-- The `for (attempt = 1; attempt <= maxRetries; attempt++)` loop from a given value of
`attempt`; `answers k` is the answer to the request numbered `k`, counted from 0.  Returns
the number of requests issued so far and the returned value. -/
def detailLoop (answers : Nat → DetailResponse) (attempt : Nat) : Nat × DetailResult :=
  if attempt ≤ maxRetries then
    match answers (attempt - 1) with
    | .ok d => (attempt, .data d)
    | .error status =>
      if attempt < maxRetries ∧ (status = some 500 ∨ status = some 503) then
        detailLoop answers (attempt + 1)
      else (attempt, .null)
  else (attempt - 1, .undefined)
termination_by maxRetries + 1 - attempt
decreasing_by omega

/-- The function `fetchDetailedCosmopolitanProduct`: the requests issued and the value
returned.  Every request is a GET of the same path. -/
def fetchDetailedCosmopolitanProduct (itemCode : String) (answers : Nat → DetailResponse) :
    List String × DetailResult :=
  (List.replicate (detailLoop answers 1).1 ("/products/" ++ itemCode), (detailLoop answers 1).2)

/-! ## `fetchAllShopifyProducts` and `findShopifyProductBySKU` (lines 84-181) -/

/-- Lines 90-93 and 137-140: the URL of a page request. -/
def pageUrl (fields : String) (pageInfo : Option String) : String :=
  if truthy pageInfo then
    "/products.json?fields=" ++ fields ++ "&limit=250" ++ "&page_info=" ++ pageInfo.getD ""
  else "/products.json?fields=" ++ fields ++ "&limit=250"

/-- Lines 104-114 and 150-160: the value assigned to `pageInfo` after a successful answer,
or `threw` when the URL constructor throws inside the `try`. -/
def nextPageInfo (urlPageInfo : String → UrlResult) (link : Option String) : UrlResult :=
  if truthy link then
    match matchNext (link.getD "").data with
    | some target => urlPageInfo (String.mk target)
    | none => .pageInfo none
  else .pageInfo none

/-- The `do ... while (pageInfo)` loop shared, word for word apart from the `fields`
parameter of the URL, by `fetchAllShopifyProducts` (lines 89-127) and
`findShopifyProductBySKU` (lines 136-172). The waits between requests do not change what
is requested or returned and are left out. -/
def shopifyPageLoop (urlPageInfo : String → UrlResult) (fields : String) :
    List ShopifyResponse → List ShopifyProduct → Option String →
    FetchOutcome (List ShopifyProduct)
  | [], _, pageInfo => ⟨[pageUrl fields pageInfo], none⟩
  | .ok products link :: rest, allProducts, pageInfo =>
    match nextPageInfo urlPageInfo link with
    | .threw => ⟨[pageUrl fields pageInfo], some (allProducts ++ products)⟩
    | .pageInfo next =>
      if truthy next then
        (shopifyPageLoop urlPageInfo fields rest (allProducts ++ products) next).after
          (pageUrl fields pageInfo)
      else ⟨[pageUrl fields pageInfo], some (allProducts ++ products)⟩
  | .error status :: rest, allProducts, pageInfo =>
    if status = some 429 then
      if truthy pageInfo then
        (shopifyPageLoop urlPageInfo fields rest allProducts pageInfo).after
          (pageUrl fields pageInfo)
      else ⟨[pageUrl fields pageInfo], some allProducts⟩
    else ⟨[pageUrl fields pageInfo], some allProducts⟩

/-- The function `fetchAllShopifyProducts`. -/
def fetchAllShopifyProducts (urlPageInfo : String → UrlResult)
    (script : List ShopifyResponse) : FetchOutcome (List ShopifyProduct) :=
  shopifyPageLoop urlPageInfo "id,variants,images" script [] none

/-- Lines 174-180: the first product with a variant whose `sku` is the one looked for. -/
def firstWithSku (allProducts : List ShopifyProduct) (sku : String) : Option ShopifyProduct :=
  allProducts.find? (fun product => product.variants.any (fun v => v.sku == some sku))

/-- The function `findShopifyProductBySKU`: the requests of its scan and the product found
(`some none` is the JavaScript `null`). -/
def findShopifyProductBySKU (urlPageInfo : String → UrlResult)
    (script : List ShopifyResponse) (sku : String) : FetchOutcome (Option ShopifyProduct) :=
  { requests := (shopifyPageLoop urlPageInfo "id,variants" script [] none).requests
    result := (shopifyPageLoop urlPageInfo "id,variants" script [] none).result.map
      (fun allProducts => firstWithSku allProducts sku) }

/-! ## `createOrUpdateShopifyProduct` (lines 185-260) -/

/-- The variant object of the payload (lines 217-225).  `price` holds the double whose
decimal rendering `finalPrice.toString()` is sent, `compare_at_price` the cents of the
two-decimal string. -/
structure VariantData where
  price : ℚ
  compare_at_price : ℤ
  sku : String
  inventory_quantity : ℤ
  inventory_management : String
  weight : String
  weight_unit : String
deriving DecidableEq, Repr

/-- An image object of the payload. -/
structure ImageData where
  src : String
deriving DecidableEq, Repr

/-- The object under `product` in a request body; a field that is not present is `none`. -/
structure ProductData where
  title : Option String
  body_html : Option String
  vendor : Option String
  product_type : Option String
  tags : Option (List String)
  variants : Option (List VariantData)
  images : Option (List ImageData)
  status : Option String
deriving DecidableEq, Repr

/-- A write request sent to the storefront: `POST /products.json` or
`PUT /products/{id}.json`, with the object under `product`. -/
inductive Write where
  | post (data : ProductData)
  | put (id : Nat) (data : ProductData)
deriving DecidableEq, Repr

/-- The branch of lines 231-252 that a call enters. -/
inductive Branch where
  | update
  | draft
  | create
  | skip
deriving DecidableEq, Repr

/-- JavaScript `value || ""` for a string that may be absent. -/
def orEmpty (value : Option String) : String :=
  if truthy value then value.getD "" else ""

/-- How a template literal prints a string that may be `undefined`. -/
def jsString (value : Option String) : String := value.getD "undefined"

/-- Lines 196-202. -/
def fullDescription (d : Detail) : String :=
  "<strong>Description:</strong> " ++ d.Desc ++ "\n    " ++ orEmpty d.Desc2 ++ "\n    "
    ++ orEmpty d.Desc3 ++ "<br>\n    <strong>UPC:</strong> " ++ d.UPC
    ++ "<br>\n    <strong>Size:</strong> " ++ d.Size
    ++ "<br>\n    <strong>Designer:</strong> " ++ d.Designer
    ++ "<br>\n    <strong>Fragrance:</strong> " ++ jsString d.Fragrance

/-- Lines 211-216. -/
def productTags (d : Detail) : List String :=
  [ if truthy d.ProductLine then "ProductLine_" ++ d.ProductLine.getD "" else "Unclassified",
    if truthy d.ProductClass then "ProductClass_" ++ d.ProductClass.getD "" else "Unclassified",
    "Designer_" ++ d.Designer,
    if truthy d.Fragrance then "Fragrance_" ++ d.Fragrance.getD "" else "No Fragrance" ]

/-- Lines 217-225. -/
def variantData (d : Detail) : VariantData :=
  { price := finalPrice d.Net
    compare_at_price := compareAtPrice d.Retail
    sku := d.Item
    inventory_quantity := d.Available
    inventory_management := "shopify"
    weight := if truthy d.Weight then d.Weight.getD "" else "0"
    weight_unit := "oz" }

/-- Lines 205-227: `productData.product` as first built. -/
def productData (d : Detail) : ProductData :=
  { title := some d.Desc
    body_html := some (fullDescription d)
    vendor := some "Cosmopolitan"
    product_type := some d.Product
    tags := some (productTags d)
    variants := some [variantData d]
    images := none
    status := none }

/-- Lines 233-236: the four `delete` statements of the update branch. -/
def updateData (d : Detail) : ProductData :=
  { productData d with images := none, title := none, body_html := none, tags := none }

/-- Line 247: the payload of a creation, with the image list. -/
def createData (d : Detail) : ProductData :=
  { productData d with
    images := some (if truthy d.ImageURL then [⟨d.ImageURL.getD ""⟩] else []) }

/-- Line 243: the payload `{ product: { status: 'draft' } }`. -/
def draftData : ProductData :=
  { title := none, body_html := none, vendor := none, product_type := none, tags := none,
    variants := none, images := none, status := some "draft" }

/-- The storefront seen from the client, over a state `σ`: `pages s` are the answers, in
order, to the page requests of one catalog scan begun in state `s`; `post` and `put` give
the state after a write request, whether the storefront accepted it or not (a rejected
write is caught at line 253 and changes nothing else). -/
structure Storefront (σ : Type) where
  urlPageInfo : String → UrlResult
  pages : σ → List ShopifyResponse
  post : ProductData → σ → σ
  put : Nat → ProductData → σ → σ

/-- What one call of `createOrUpdateShopifyProduct` did. -/
structure CallOutcome (σ : Type) where
  branch : Branch
  writes : List Write
  state : σ

/-- The expression `existingProduct.id`: reading `id` of `null` throws a TypeError,
rendered as `none`. -/
def productId (existingProduct : Option ShopifyProduct) : Option Nat :=
  existingProduct.map (fun product => product.id)

/-- Lines 231-252 once `findShopifyProductBySKU` has returned `existingProduct`.  An
exception raised inside the `try` is caught at line 253, where only logging follows. -/
def decideWrite {σ : Type} (sf : Storefront σ) (d : Detail)
    (cosmopolitanSKUs shopifySKUs : List (Option String))
    (existingProduct : Option ShopifyProduct) (s : σ) : CallOutcome σ :=
  if existingProduct.isSome then
    match productId existingProduct with
    | some id => ⟨.update, [.put id (updateData d)], sf.put id (updateData d) s⟩
    | none => ⟨.update, [], s⟩
  else if !cosmopolitanSKUs.contains (some d.Item) then
    match productId existingProduct with
    | some id => ⟨.draft, [.put id draftData], sf.put id draftData s⟩
    | none => ⟨.draft, [], s⟩
  else if !shopifySKUs.contains (some d.Item) then
    ⟨.create, [.post (createData d)], sf.post (createData d) s⟩
  else ⟨.skip, [], s⟩

/-- The function `createOrUpdateShopifyProduct`; `none` when the scan of
`findShopifyProductBySKU` is left waiting for an answer. -/
def createOrUpdateShopifyProduct {σ : Type} (sf : Storefront σ) (d : Detail)
    (cosmopolitanSKUs shopifySKUs : List (Option String)) (s : σ) : Option (CallOutcome σ) :=
  (findShopifyProductBySKU sf.urlPageInfo (sf.pages s) d.Item).result.map
    (fun existingProduct => decideWrite sf d cosmopolitanSKUs shopifySKUs existingProduct s)

/-! ## `processAllCosmopolitanProducts` (lines 262-283) -/

/-- The product classes of the condition of line 277. -/
def excludedClasses : List String :=
  ["FGDLDY", "FGDUNX", "FGDMEN", "FGDCHD", "MINLDY", "MINUNX", "MINMEN", "BDDLDY", "BTDLDY",
   "BDDUNX", "BTDUNX", "SHVDMN", "BDDMEN", "BTDMEN", "BTDCHD", "BDDCHD", "DUODLDY", "DUODMEN",
   "STDLDY", "STDUNX", "STDMEN", "STDCHD", "MSDLDY", "MSDUNX", "MSDMEN", "SETDSKIN",
   "SETDMAKE", "SKIND", "SKINDMEN", "MAKED", "HAIRD", "HAIRDMEN"]

/-- The condition of line 277 on a detail record that was fetched. -/
def eligible (d : Detail) : Bool :=
  d.ProductLine != some "Wellness" && d.ProductLine != some "Miscellaneous"
    && excludedClasses.all (fun c => d.ProductClass != some c)

/-- The distributor seen from the client: the scripted answers of the list endpoint and,
for every item code, the answers to the successive detail requests for it. -/
structure Distributor where
  listing : List CosmoListResponse
  detail : String → Nat → DetailResponse

/-- What a run did: the calls of `createOrUpdateShopifyProduct`, each with the code of the
listed product it was made for and the detail record passed, the write requests sent, and
the state the storefront is left in. -/
structure RunOutcome (σ : Type) where
  calls : List (String × Detail)
  writes : List Write
  state : σ

/-- The `for (const product of products)` loop of lines 268-282.  `none`: the run does not
complete, because a scan is left waiting for an answer or because `product.Item.endsWith`
throws on a product without `Item`. -/
def processLoop {σ : Type} (sf : Storefront σ) (dist : Distributor)
    (cosmopolitanSKUs shopifySKUs : List (Option String)) :
    List CosmoItem → σ → Option (RunOutcome σ)
  | [], s => some ⟨[], [], s⟩
  | product :: rest, s =>
    match product.Item with
    | none => none
    | some code =>
      let detailedProductInfo := (fetchDetailedCosmopolitanProduct code (dist.detail code)).2
      if endsWith code "-A" then processLoop sf dist cosmopolitanSKUs shopifySKUs rest s
      else
        match detailedProductInfo with
        | .data d =>
          if eligible d then
            match createOrUpdateShopifyProduct sf d cosmopolitanSKUs shopifySKUs s with
            | none => none
            | some call =>
              (processLoop sf dist cosmopolitanSKUs shopifySKUs rest call.state).map
                (fun run => ⟨(code, d) :: run.calls, call.writes ++ run.writes, run.state⟩)
          else processLoop sf dist cosmopolitanSKUs shopifySKUs rest s
        | _ => processLoop sf dist cosmopolitanSKUs shopifySKUs rest s

/-- The function `processAllCosmopolitanProducts`. -/
def processAllCosmopolitanProducts {σ : Type} (sf : Storefront σ) (dist : Distributor)
    (s : σ) : Option (RunOutcome σ) :=
  match (fetchAllCosmopolitanProducts dist.listing).result with
  | none => none
  | some products =>
    match (fetchAllShopifyProducts sf.urlPageInfo (sf.pages s)).result with
    | none => none
    | some allShopifyProducts =>
      processLoop sf dist (products.map (fun product => product.Item))
        (allShopifyProducts.flatMap (fun product => product.variants.map (fun v => v.sku)))
        products s

/-! ## A storefront that accepts every request -/

/-- The storefront as a list of products: a listing returns every product on one page
without a `link` header, a creation appends a product that carries the SKUs of the
submitted variants under an unused id, and an update, which changes prices and stock only,
leaves the products and their SKUs as they are. -/
def listStorefront : Storefront (List ShopifyProduct) where
  urlPageInfo := fun _ => .pageInfo none
  pages := fun s => [.ok s none]
  post := fun data s =>
    s ++ [⟨(s.map (fun product => product.id)).foldr max 0 + 1,
      (data.variants.getD []).map (fun v => ⟨some v.sku⟩)⟩]
  put := fun _ _ s => s

/-! ## Auxiliary notions used in the statements -/

/-- An answer after which `fetchDetailedCosmopolitanProduct` tries again: a failure with
status 500 or 503. -/
def retryable (a : DetailResponse) : Prop :=
  a = .error (some 500) ∨ a = .error (some 503)

/-- The item of the end-to-end scenario. -/
def x100 : Detail :=
  { Item := "X100", Net := 20, Retail := 40, Desc := "Eau de parfum", Desc2 := none,
    Desc3 := none, UPC := "000000000000", Size := "3.4 oz", Designer := "Designer",
    Fragrance := none, Product := "Fragrance", ProductLine := none,
    ProductClass := some "PERFUME", Available := 3, Weight := none, ImageURL := none }

/-- A storefront page that is not the last of its chain: its products, the value of its
`link` header, and the `page_info` cursor of the page that follows it. -/
structure ChainPage where
  products : List ShopifyProduct
  link : String
  cursor : String
deriving DecidableEq, Repr

/-- The `link` header of the page carries a `rel="next"` relation whose target names the
cursor of the following page. -/
def NamesNext (urlPageInfo : String → UrlResult) (page : ChainPage) : Prop :=
  ∃ target, matchNext page.link.data = some target ∧
    urlPageInfo (String.mk target) = .pageInfo (some page.cursor) ∧ page.cursor ≠ ""

/-- The `link` header is absent or carries no `rel="next"` relation. -/
def NoNext (link : Option String) : Prop :=
  link = none ∨ ∃ header, link = some header ∧ matchNext header.data = none

/-- A toy reading of `page_info` from a URL, used to run examples: everything after the
first `=`. -/
def afterEquals (url : String) : UrlResult :=
  .pageInfo (some (String.mk ((url.data.dropWhile (fun c => c != '=')).drop 1)))

/-- A `link` header naming the cursor `abc`:
`<https://shop.example/products.json?page_info=abc>; rel="next"`. -/
def linkToAbc : String :=
  String.mk ("<https://shop.example/products.json?page_info=abc>; ".data ++ relNext)

/-- A distributor with two listed codes, one of them with the reserved suffix, that answers
every detail request with the record of `x100`. -/
def twoItemDistributor : Distributor :=
  { listing := [.ok [⟨some "X100"⟩, ⟨some "Y-A"⟩] none]
    detail := fun _ _ => .ok x100 }

/-- The SKUs carried by the variants of a list of storefront products (the expression of
line 266). -/
def skusOf (products : List ShopifyProduct) : List (Option String) :=
  products.flatMap (fun product => product.variants.map (fun v => v.sku))

/-! ## Rounding lemmas -/

theorem roundTiesEven_eq_of_abs_lt (x : ℚ) (m : ℤ) (h : |x - m| < 1 / 2) :
    roundTiesEven x = m := by
  rw [abs_lt] at h
  obtain ⟨h1, h2⟩ := h
  unfold roundTiesEven
  by_cases hm : (m : ℚ) ≤ x
  · have hf : ⌊x⌋ = m := by
      rw [Int.floor_eq_iff]
      constructor
      · exact hm
      · linarith
    rw [hf, if_pos (by linarith)]
  · push_neg at hm
    have hf : ⌊x⌋ = m - 1 := by
      rw [Int.floor_eq_iff]
      push_cast
      constructor <;> linarith
    have hx : ¬ (x - ((m - 1 : ℤ) : ℚ) < 1 / 2) := by push_cast; linarith
    have hx2 : (1 : ℚ) / 2 < x - ((m - 1 : ℤ) : ℚ) := by push_cast; linarith
    rw [hf, if_neg hx, if_pos hx2]
    ring

theorem binExp_eq (q : ℚ) (e : ℤ) (he : -1022 ≤ e) (h1 : (2 : ℚ) ^ e ≤ |q|)
    (h2 : |q| < (2 : ℚ) ^ (e + 1)) : binExp q = e := by
  have hpos : (0 : ℚ) < |q| := lt_of_lt_of_le (by positivity) h1
  have hle : e ≤ Int.log 2 |q| := by
    have := (Int.zpow_le_iff_le_log (b := 2) (by norm_num) (x := e) hpos).1 (by exact_mod_cast h1)
    exact this
  have hlt : Int.log 2 |q| < e + 1 := by
    have := (Int.lt_zpow_iff_log_lt (b := 2) (by norm_num) (x := e + 1) hpos).1 (by exact_mod_cast h2)
    exact this
  unfold binExp
  omega

/-- Evaluation rule for `fl`: with `2 ^ e ≤ |q| < 2 ^ (e + 1)` in the normal range and `m`
the integer within a half of `q / 2 ^ (e - 52)`, the rounding of `q` is `m * 2 ^ (e - 52)`. -/
theorem fl_eq (q : ℚ) (e m : ℤ) (he : -1022 ≤ e) (h1 : (2 : ℚ) ^ e ≤ |q|)
    (h2 : |q| < (2 : ℚ) ^ (e + 1)) (h3 : |q / 2 ^ (e - 52) - m| < 1 / 2) :
    fl q = m * 2 ^ (e - 52) := by
  have hq : q ≠ 0 := by
    intro h
    rw [h, abs_zero] at h1
    exact absurd h1 (not_le.mpr (by positivity))
  unfold fl
  rw [if_neg hq, binExp_eq q e he h1 h2, roundTiesEven_eq_of_abs_lt _ m h3]

theorem fl_of_round (q : ℚ) (e r : ℤ) (he : -1022 ≤ e) (h1 : (2 : ℚ) ^ e ≤ |q|)
    (h2 : |q| < (2 : ℚ) ^ (e + 1)) (hr : roundTiesEven (q / 2 ^ (e - 52)) = r) :
    fl q = r * 2 ^ (e - 52) := by
  have hq : q ≠ 0 := by
    intro h
    rw [h, abs_zero] at h1
    exact absurd h1 (not_le.mpr (by positivity))
  unfold fl
  rw [if_neg hq, binExp_eq q e he h1 h2, hr]

theorem roundTiesEven_half (m : ℤ) :
    roundTiesEven ((m : ℚ) + 1 / 2) = if m % 2 = 0 then m else m + 1 := by
  have hf : ⌊(m : ℚ) + 1 / 2⌋ = m := by
    rw [Int.floor_eq_iff]
    constructor <;> linarith
  unfold roundTiesEven
  rw [hf]
  have h1 : ¬ ((m : ℚ) + 1 / 2 - m < 1 / 2) := by norm_num
  have h2 : ¬ ((1 : ℚ) / 2 < (m : ℚ) + 1 / 2 - m) := by norm_num
  rw [if_neg h1, if_neg h2]

theorem fl_2499 : fl (2499 / 100) = 7034059667999293 / 2 ^ 48 := by
  rw [fl_eq (2499 / 100) 4 7034059667999293 (by norm_num) (by norm_num [abs_of_pos])
    (by norm_num [abs_of_pos]) (by norm_num [abs_lt])]
  norm_num

theorem fl_50 : fl 50 = 50 := by
  rw [fl_eq 50 5 (50 * 2 ^ 47) (by norm_num) (by norm_num [abs_of_pos])
    (by norm_num [abs_of_pos]) (by norm_num [abs_lt])]
  norm_num

theorem factor30 : jsAdd 1 (jsDiv 30 100) = 5854679515581645 / 2 ^ 52 := by
  have h : jsDiv 30 100 = 5404319552844595 / 2 ^ 54 := by
    unfold jsDiv
    rw [fl_eq (30 / 100) (-2) 5404319552844595 (by norm_num) (by norm_num [abs_of_pos])
      (by norm_num [abs_of_pos]) (by norm_num [abs_lt])]
    norm_num
  rw [h]
  unfold jsAdd
  rw [fl_eq _ 0 5854679515581645 (by norm_num) (by norm_num [abs_of_pos])
      (by norm_num [abs_of_pos]) (by norm_num [abs_lt])]
  norm_num

theorem markupPercentage_of_le (n : ℚ) (h : n ≤ 7034059667999293 / 2 ^ 48) :
    markupPercentage n = 30 := by
  unfold markupPercentage
  rw [fl_2499, if_pos h]

theorem finalPrice_three_steps :
    jsMul (jsMul 3 (jsAdd 1 (jsDiv (markupPercentage 3) 100))) 100
      = 6860952557322241 / 2 ^ 44 := by
  rw [markupPercentage_of_le 3 (by norm_num), factor30]
  have h1 : jsMul 3 (5854679515581645 / 2 ^ 52) = 8782019273372468 / 2 ^ 51 := by
    unfold jsMul
    rw [fl_of_round _ 1 8782019273372468 (by norm_num) (by norm_num [abs_of_pos])
      (by norm_num [abs_of_pos])]
    · norm_num
    · have h : (3 * (5854679515581645 / 2 ^ 52) / 2 ^ ((1 : ℤ) - 52) : ℚ)
          = ((8782019273372467 : ℤ) : ℚ) + 1 / 2 := by norm_num
      rw [h, roundTiesEven_half]
      norm_num
  rw [h1]
  unfold jsMul
  rw [fl_eq _ 8 6860952557322241 (by norm_num) (by norm_num [abs_of_pos])
      (by norm_num [abs_of_pos]) (by norm_num [abs_lt])]
  norm_num

theorem finalPrice_three_value : finalPrice 3 = 1100567158938665 / 2 ^ 48 := by
  unfold finalPrice
  rw [finalPrice_three_steps]
  have hc : mathCeil (6860952557322241 / 2 ^ 44) = 391 := by
    unfold mathCeil
    have : ⌈(6860952557322241 / 2 ^ 44 : ℚ)⌉ = 391 := by
      rw [Int.ceil_eq_iff]
      constructor <;> norm_num
    rw [this]
    norm_num
  rw [hc]
  unfold jsDiv
  rw [fl_eq _ 1 8804537271509320 (by norm_num) (by norm_num [abs_of_pos])
      (by norm_num [abs_of_pos]) (by norm_num [abs_lt])]
  norm_num

/-- A double in `[16, 32)` is a whole multiple of `2 ^ (-48)`. -/
theorem isDouble_grid (n : ℚ) (hn : IsDouble n) (h1 : 16 ≤ n) (h2 : n < 32) :
    ∃ k : ℤ, n = k / 2 ^ 48 := by
  have hpos : 0 < n := by linarith
  have hne : n ≠ 0 := ne_of_gt hpos
  have he : binExp n = 4 :=
    binExp_eq n 4 (by norm_num) (by rw [abs_of_pos hpos]; norm_num; exact h1)
      (by rw [abs_of_pos hpos]; norm_num; exact h2)
  unfold IsDouble fl at hn
  rw [if_neg hne, he] at hn
  refine ⟨roundTiesEven (n / 2 ^ ((4 : ℤ) - 52)), ?_⟩
  calc n = (roundTiesEven (n / 2 ^ ((4 : ℤ) - 52)) : ℚ) * 2 ^ ((4 : ℤ) - 52) := hn.symm
    _ = (roundTiesEven (n / 2 ^ ((4 : ℤ) - 52)) : ℚ) / 2 ^ 48 := by
      norm_num [div_eq_mul_inv]

theorem le_fl_2499 (n : ℚ) (hn : IsDouble n) (h : n ≤ 2499 / 100) :
    n ≤ 7034059667999293 / 2 ^ 48 := by
  by_cases h16 : n < 16
  · have : (16 : ℚ) ≤ 7034059667999293 / 2 ^ 48 := by norm_num
    linarith
  · push_neg at h16
    obtain ⟨k, hk⟩ := isDouble_grid n hn h16 (by linarith)
    have hk1 : (k : ℚ) < 7034059667999294 := by
      have : (k : ℚ) = n * 2 ^ 48 := by rw [hk]; norm_num
      rw [this]
      have : n * 2 ^ 48 ≤ 2499 / 100 * 2 ^ 48 := by
        apply mul_le_mul_of_nonneg_right h
        positivity
      have h3 : (2499 / 100 * 2 ^ 48 : ℚ) < 7034059667999294 := by norm_num
      linarith
    have hk2 : k ≤ 7034059667999293 := by
      have : k < 7034059667999294 := by exact_mod_cast hk1
      omega
    rw [hk]
    have : (k : ℚ) ≤ 7034059667999293 := by exact_mod_cast hk2
    apply div_le_div_of_nonneg_right this
    positivity

theorem fl_5001 : fl (5001 / 100) = 7038281792649953 / 2 ^ 47 := by
  rw [fl_eq (5001 / 100) 5 7038281792649953 (by norm_num) (by norm_num [abs_of_pos])
    (by norm_num [abs_of_pos]) (by norm_num [abs_lt])]
  norm_num

theorem fl_25 : fl 25 = 25 := by
  rw [fl_eq 25 4 (25 * 2 ^ 48) (by norm_num) (by norm_num [abs_of_pos])
    (by norm_num [abs_of_pos]) (by norm_num [abs_lt])]
  norm_num

theorem fl_10 : fl 10 = 10 := by
  rw [fl_eq 10 3 (10 * 2 ^ 49) (by norm_num) (by norm_num [abs_of_pos])
    (by norm_num [abs_of_pos]) (by norm_num [abs_lt])]
  norm_num

/-- Claim C1.  For every net price `n` that is a finite double, the markup applied by
`createOrUpdateShopifyProduct` is 30 percent when `n ≤ 24.99`, 25 percent when
`24.99 < n ≤ 50.00` and 20 percent when `n > 50.00`; the decimal prices 24.99, 25.00, 50.00
and 50.01, as `parseFloat` reads them, get 30, 25, 25 and 20 percent. -/
theorem markup_tiers (n : ℚ) (hn : IsDouble n) :
    (n ≤ 2499 / 100 → markupPercentage n = 30) ∧
    (2499 / 100 < n → n ≤ 50 → markupPercentage n = 25) ∧
    (50 < n → markupPercentage n = 20) ∧
    markupPercentage (fl (2499 / 100)) = 30 ∧ markupPercentage (fl 25) = 25 ∧
    markupPercentage (fl 50) = 25 ∧ markupPercentage (fl (5001 / 100)) = 20 := by
  have hlt : (7034059667999293 / 2 ^ 48 : ℚ) < 2499 / 100 := by norm_num
  refine ⟨?_, ?_, ?_, ?_, ?_, ?_, ?_⟩
  · intro h
    exact markupPercentage_of_le n (le_fl_2499 n hn h)
  · intro h1 h2
    unfold markupPercentage
    rw [fl_2499, fl_50, if_neg (by linarith), if_pos h2]
  · intro h
    unfold markupPercentage
    rw [fl_2499, fl_50, if_neg (by linarith), if_neg (by linarith)]
  · exact markupPercentage_of_le _ (by rw [fl_2499])
  · unfold markupPercentage
    rw [fl_2499, fl_50, fl_25, if_neg (by norm_num), if_pos (by norm_num)]
  · unfold markupPercentage
    rw [fl_2499, fl_50, if_neg (by norm_num), if_pos (by norm_num)]
  · unfold markupPercentage
    rw [fl_2499, fl_50, fl_5001, if_neg (by norm_num), if_neg (by norm_num)]

/-- Claim C1 at the net price 10, a double at most 24.99. -/
theorem markup_tiers_witness : IsDouble 10 ∧ markupPercentage 10 = 30 :=
  ⟨fl_10, (markup_tiers 10 fl_10).1 (by norm_num)⟩

theorem mathCeil_eq (x : ℚ) (k : ℤ) (h1 : (k : ℚ) - 1 < x) (h2 : x ≤ k) : mathCeil x = k := by
  unfold mathCeil
  rw [Int.ceil_eq_iff.2 ⟨h1, h2⟩]

theorem fl_391 : fl (391 / 100) = 1100567158938665 / 2 ^ 48 := by
  rw [fl_eq _ 1 8804537271509320 (by norm_num) (by norm_num [abs_of_pos])
      (by norm_num [abs_of_pos]) (by norm_num [abs_lt])]
  norm_num

theorem fl_3 : fl 3 = 3 := by
  rw [fl_eq 3 1 (3 * 2 ^ 51) (by norm_num) (by norm_num [abs_of_pos])
    (by norm_num [abs_of_pos]) (by norm_num [abs_lt])]
  norm_num

theorem finalPrice_20 : finalPrice 20 = 26 := by
  unfold finalPrice
  rw [markupPercentage_of_le 20 (by norm_num), factor30]
  have h1 : jsMul 20 (5854679515581645 / 2 ^ 52) = 26 := by
    unfold jsMul
    rw [fl_eq _ 4 (26 * 2 ^ 48) (by norm_num) (by norm_num [abs_of_pos])
      (by norm_num [abs_of_pos]) (by norm_num [abs_lt])]
    norm_num
  have h2 : jsMul 26 100 = 2600 := by
    unfold jsMul
    rw [fl_eq _ 11 (2600 * 2 ^ 41) (by norm_num) (by norm_num [abs_of_pos])
      (by norm_num [abs_of_pos]) (by norm_num [abs_lt])]
    norm_num
  have h3 : mathCeil 2600 = 2600 := by
    rw [mathCeil_eq 2600 2600 (by norm_num) (by norm_num)]
    norm_num
  have h4 : jsDiv 2600 100 = 26 := by
    unfold jsDiv
    rw [fl_eq _ 4 (26 * 2 ^ 48) (by norm_num) (by norm_num [abs_of_pos])
      (by norm_num [abs_of_pos]) (by norm_num [abs_lt])]
    norm_num
  rw [h1, h2, h3, h4]

theorem finalPrice_10 : finalPrice 10 = 13 := by
  unfold finalPrice
  rw [markupPercentage_of_le 10 (by norm_num), factor30]
  have h1 : jsMul 10 (5854679515581645 / 2 ^ 52) = 13 := by
    unfold jsMul
    rw [fl_eq _ 3 (13 * 2 ^ 49) (by norm_num) (by norm_num [abs_of_pos])
      (by norm_num [abs_of_pos]) (by norm_num [abs_lt])]
    norm_num
  have h2 : jsMul 13 100 = 1300 := by
    unfold jsMul
    rw [fl_eq _ 10 (1300 * 2 ^ 42) (by norm_num) (by norm_num [abs_of_pos])
      (by norm_num [abs_of_pos]) (by norm_num [abs_lt])]
    norm_num
  have h3 : mathCeil 1300 = 1300 := by
    rw [mathCeil_eq 1300 1300 (by norm_num) (by norm_num)]
    norm_num
  have h4 : jsDiv 1300 100 = 13 := by
    unfold jsDiv
    rw [fl_eq _ 3 (13 * 2 ^ 49) (by norm_num) (by norm_num [abs_of_pos])
      (by norm_num [abs_of_pos]) (by norm_num [abs_lt])]
    norm_num
  rw [h1, h2, h3, h4]

theorem fl_10001 : fl (10001 / 1000) = 5630062484166541 / 2 ^ 49 := by
  rw [fl_eq _ 3 5630062484166541 (by norm_num) (by norm_num [abs_of_pos])
      (by norm_num [abs_of_pos]) (by norm_num [abs_lt])]
  norm_num

theorem finalPrice_10001 : finalPrice (fl (10001 / 1000)) = fl (1301 / 100) := by
  rw [fl_10001]
  unfold finalPrice
  rw [markupPercentage_of_le _ (by norm_num), factor30]
  have h1 : jsMul (5630062484166541 / 2 ^ 49) (5854679515581645 / 2 ^ 52)
      = 7319081229416504 / 2 ^ 49 := by
    unfold jsMul
    rw [fl_eq _ 3 7319081229416504 (by norm_num) (by norm_num [abs_of_pos])
      (by norm_num [abs_of_pos]) (by norm_num [abs_lt])]
    norm_num
  have h2 : jsMul (7319081229416504 / 2 ^ 49) 100 = 5718032210481644 / 2 ^ 42 := by
    unfold jsMul
    rw [fl_eq _ 10 5718032210481644 (by norm_num) (by norm_num [abs_of_pos])
      (by norm_num [abs_of_pos]) (by norm_num [abs_lt])]
    norm_num
  have h3 : mathCeil (5718032210481644 / 2 ^ 42) = 1301 := by
    rw [mathCeil_eq _ 1301 (by norm_num) (by norm_num)]
    norm_num
  rw [h1, h2, h3]
  rfl

/-- Claim C2, at the failing input.  For the net price 3.00 the tier is 30 percent and the
exact marked-up price 3.90 is a whole number of cents (390), yet `finalPrice` returns the
double written 3.91: the product `3 * 1.3` is rounded to 3.9000000000000004, its hundredfold
to 390.00000000000006, and `Math.ceil` gives 391.  The result exceeds the exact price by
more than a cent.  The two examples given with the claim do hold: net 10.00 gives 13.00
and net 10.001 gives 13.01. -/
theorem finalPrice_three_overshoots :
    IsDouble 3 ∧ markupPercentage 3 = 30 ∧ finalPrice 3 = fl (391 / 100) ∧
    ⌈(3 : ℚ) * (1 + 30 / 100) * 100⌉ = 390 ∧
    (1 : ℚ) / 100 < finalPrice 3 - 3 * (1 + 30 / 100) ∧
    finalPrice 10 = 13 ∧ finalPrice (fl (10001 / 1000)) = fl (1301 / 100) := by
  refine ⟨fl_3, markupPercentage_of_le 3 (by norm_num), ?_, ?_, ?_, finalPrice_10,
    finalPrice_10001⟩
  · rw [finalPrice_three_value, fl_391]
  · rw [Int.ceil_eq_iff]
    constructor <;> norm_num
  · rw [finalPrice_three_value]
    norm_num

theorem compareAtPrice_40 : compareAtPrice 40 = 4000 := by
  unfold compareAtPrice toFixed2
  rw [if_neg (by norm_num), Int.floor_eq_iff]
  constructor <;> norm_num

/-- Claim C3.  When the item code of a detail record is in the distributor SKU set, not in
the storefront SKU set, and `findShopifyProductBySKU` returns `null`, the call sends exactly
one write request, a `POST /products.json` whose single variant has the item code as SKU,
the tiered, rounded-up final price as price and the retail price to two decimals as
compare-at price; for net 20.00 and retail 40.00 these are 26 and 40.00 (4000 cents). -/
theorem create_when_absent {σ : Type} (sf : Storefront σ) (d : Detail)
    (cosmopolitanSKUs shopifySKUs : List (Option String)) (s : σ)
    (hcosmo : some d.Item ∈ cosmopolitanSKUs) (hshop : some d.Item ∉ shopifySKUs)
    (hfind : (findShopifyProductBySKU sf.urlPageInfo (sf.pages s) d.Item).result = some none) :
    ∃ call data v,
      createOrUpdateShopifyProduct sf d cosmopolitanSKUs shopifySKUs s = some call ∧
      call.branch = .create ∧ call.writes = [.post data] ∧
      data.variants = some [v] ∧ v.sku = d.Item ∧ v.price = finalPrice d.Net ∧
      v.compare_at_price = toFixed2 d.Retail ∧
      (d.Net = 20 → d.Retail = 40 → v.price = 26 ∧ v.compare_at_price = 4000) := by
  refine ⟨decideWrite sf d cosmopolitanSKUs shopifySKUs none s, createData d, variantData d,
    ?_, ?_, ?_, rfl, rfl, rfl, rfl, ?_⟩
  · unfold createOrUpdateShopifyProduct
    rw [hfind]
    rfl
  · simp [decideWrite, hcosmo, hshop]
  · simp [decideWrite, hcosmo, hshop]
  · intro hnet hretail
    constructor
    · show finalPrice d.Net = 26
      rw [hnet, finalPrice_20]
    · show compareAtPrice d.Retail = 4000
      rw [hretail, compareAtPrice_40]

/-- Claim C3 for the item `x100` on an empty storefront, its code being listed by the
distributor. -/
theorem create_when_absent_witness :
    ∃ call data v,
      createOrUpdateShopifyProduct listStorefront x100 [some "X100"] [] [] = some call ∧
      call.branch = .create ∧ call.writes = [.post data] ∧
      data.variants = some [v] ∧ v.sku = x100.Item ∧ v.price = finalPrice x100.Net ∧
      v.compare_at_price = toFixed2 x100.Retail ∧
      (x100.Net = 20 → x100.Retail = 40 → v.price = 26 ∧ v.compare_at_price = 4000) :=
  create_when_absent listStorefront x100 [some "X100"] [] [] (by simp [x100]) (by simp) (by rfl)

/-- Claim C9.  When `findShopifyProductBySKU` returns a product, the call sends exactly one
write request, a `PUT` to the id of that product whose payload has no title, no `body_html`,
no tags and no images, whatever the two SKU sets contain; nothing is created. -/
theorem update_when_found {σ : Type} (sf : Storefront σ) (d : Detail)
    (cosmopolitanSKUs shopifySKUs : List (Option String)) (s : σ) (found : ShopifyProduct)
    (hfind : (findShopifyProductBySKU sf.urlPageInfo (sf.pages s) d.Item).result
      = some (some found)) :
    ∃ call data,
      createOrUpdateShopifyProduct sf d cosmopolitanSKUs shopifySKUs s = some call ∧
      call.branch = .update ∧ call.writes = [.put found.id data] ∧
      data.title = none ∧ data.body_html = none ∧ data.tags = none ∧ data.images = none := by
  refine ⟨decideWrite sf d cosmopolitanSKUs shopifySKUs (some found) s, updateData d,
    ?_, ?_, ?_, rfl, rfl, rfl, rfl⟩
  · unfold createOrUpdateShopifyProduct
    rw [hfind]
    rfl
  · simp [decideWrite, productId]
  · simp [decideWrite, productId]

/-- Claim C9 for the item `x100` on a storefront whose product 7 carries its SKU. -/
theorem update_when_found_witness :
    ∃ call data,
      createOrUpdateShopifyProduct listStorefront x100 [] [] [⟨7, [⟨some "X100"⟩]⟩] = some call ∧
      call.branch = .update ∧ call.writes = [.put 7 data] ∧
      data.title = none ∧ data.body_html = none ∧ data.tags = none ∧ data.images = none :=
  update_when_found listStorefront x100 [] [] [⟨7, [⟨some "X100"⟩]⟩] ⟨7, [⟨some "X100"⟩]⟩
    (by decide)

/-- Claim C8, at the failing input.  Whenever the draft branch is entered, no storefront
product was found and no request is sent: `existingProduct` is `null` there, reading
`existingProduct.id` throws and the exception is caught.  For the item `x100`, with an empty
distributor SKU set and an empty storefront, the call enters the draft branch and issues no
write. -/
theorem draft_branch_sends_nothing :
    (∀ {σ : Type} (sf : Storefront σ) (d : Detail)
      (cosmopolitanSKUs shopifySKUs : List (Option String))
      (existingProduct : Option ShopifyProduct) (s : σ),
      (decideWrite sf d cosmopolitanSKUs shopifySKUs existingProduct s).branch = .draft →
        existingProduct = none ∧
        (decideWrite sf d cosmopolitanSKUs shopifySKUs existingProduct s).writes = []) ∧
    (createOrUpdateShopifyProduct listStorefront x100 [] [] []).map
      (fun call => (call.branch, call.writes)) = some (.draft, []) := by
  constructor
  · intro σ sf d cosmo shop existing s h
    cases existing with
    | some p => simp [decideWrite, productId] at h
    | none =>
      refine ⟨rfl, ?_⟩
      by_cases hc : some d.Item ∈ cosmo
      · by_cases hs : some d.Item ∈ shop <;> simp [decideWrite, hc, hs] at h
      · simp [decideWrite, productId, hc]
  · decide

/-- Claim C5, at the failing input.  A 429 answer to the first page request, which has no
cursor, ends the scan of `fetchAllShopifyProducts` and of `findShopifyProductBySKU` after
that single request, whatever answers would follow: `pageInfo` is still `null` when the
test of `while (pageInfo)` is reached.  A 429 answer to a request that has a cursor is
followed by a request for the same page. -/
theorem first_page_429_ends_pagination (urlPageInfo : String → UrlResult)
    (rest : List ShopifyResponse) (sku : String) :
    fetchAllShopifyProducts urlPageInfo (.error (some 429) :: rest)
      = ⟨["/products.json?fields=id,variants,images&limit=250"], some []⟩ ∧
    findShopifyProductBySKU urlPageInfo (.error (some 429) :: rest) sku
      = ⟨["/products.json?fields=id,variants&limit=250"], some none⟩ ∧
    (∀ (fields cursor : String) (allProducts : List ShopifyProduct), cursor ≠ "" →
      shopifyPageLoop urlPageInfo fields (.error (some 429) :: rest) allProducts (some cursor)
        = (shopifyPageLoop urlPageInfo fields rest allProducts (some cursor)).after
            (pageUrl fields (some cursor))) := by
  refine ⟨?_, ?_, ?_⟩
  · simp [fetchAllShopifyProducts, shopifyPageLoop, truthy, pageUrl]
  · simp [findShopifyProductBySKU, shopifyPageLoop, truthy, pageUrl, firstWithSku]
  · intro fields cursor allProducts hc
    simp [shopifyPageLoop, truthy, hc]

theorem detailLoop_three (answers : Nat → DetailResponse) :
    detailLoop answers 3 =
      match answers 2 with
      | .ok d => (3, .data d)
      | .error _ => (3, .null) := by
  rw [detailLoop]
  simp only [maxRetries, le_refl, if_true]
  cases answers 2 <;> simp

theorem detailLoop_two (answers : Nat → DetailResponse) :
    detailLoop answers 2 =
      match answers 1 with
      | .ok d => (2, .data d)
      | .error status =>
        if status = some 500 ∨ status = some 503 then detailLoop answers 3 else (2, .null) := by
  rw [detailLoop]
  simp only [maxRetries]
  cases answers 1 <;> simp

theorem detailLoop_one (answers : Nat → DetailResponse) :
    detailLoop answers 1 =
      match answers 0 with
      | .ok d => (1, .data d)
      | .error status =>
        if status = some 500 ∨ status = some 503 then detailLoop answers 2 else (1, .null) := by
  rw [detailLoop]
  simp only [maxRetries]
  cases answers 0 <;> simp

theorem retryable_error (status : Option Nat) :
    retryable (.error status) ↔ (status = some 500 ∨ status = some 503) := by
  unfold retryable
  constructor
  · rintro (h | h) <;> injection h with h <;> simp [h]
  · rintro (h | h) <;> simp [h]

theorem not_retryable_ok (d : Detail) : ¬ retryable (.ok d) := by
  unfold retryable
  rintro (h | h) <;> cases h

/-- Claim C7.  Whatever the distributor answers, `fetchDetailedCosmopolitanProduct` issues
between one and three requests and returns a value, never the fall-through `undefined`:
the data of the first successful answer when only 500 or 503 failures precede it, `null`
right after the first failure that is neither a 500 nor a 503, a further request only after
a 500 or a 503, and `null` after exactly three requests when all three are answered with
503. -/
theorem fetchDetailed_bounded_retry (itemCode : String) (answers : Nat → DetailResponse) :
    1 ≤ (fetchDetailedCosmopolitanProduct itemCode answers).1.length ∧
    (fetchDetailedCosmopolitanProduct itemCode answers).1.length ≤ 3 ∧
    (fetchDetailedCosmopolitanProduct itemCode answers).2 ≠ .undefined ∧
    (∀ k d, k < 3 → (∀ j, j < k → retryable (answers j)) → answers k = .ok d →
      (fetchDetailedCosmopolitanProduct itemCode answers).1.length = k + 1 ∧
      (fetchDetailedCosmopolitanProduct itemCode answers).2 = .data d) ∧
    (∀ k, k + 1 < (fetchDetailedCosmopolitanProduct itemCode answers).1.length →
      retryable (answers k)) ∧
    (∀ k status, k < 3 → (∀ j, j < k → retryable (answers j)) →
      answers k = .error status → ¬ retryable (.error status) →
      (fetchDetailedCosmopolitanProduct itemCode answers).1.length = k + 1 ∧
      (fetchDetailedCosmopolitanProduct itemCode answers).2 = .null) ∧
    ((∀ j, j < 3 → answers j = .error (some 503)) →
      (fetchDetailedCosmopolitanProduct itemCode answers).1.length = 3 ∧
      (fetchDetailedCosmopolitanProduct itemCode answers).2 = .null) := by
  simp only [fetchDetailedCosmopolitanProduct, List.length_replicate]
  rw [detailLoop_one]
  cases h0 : answers 0 with
  | ok d0 =>
    refine ⟨by simp, by simp, by simp, ?_, ?_, ?_, ?_⟩
    · intro k d hk hj hd
      interval_cases k
      · rw [h0] at hd; cases hd; simp
      · exact absurd (h0 ▸ hj 0 (by norm_num)) (not_retryable_ok d0)
      · exact absurd (h0 ▸ hj 0 (by norm_num)) (not_retryable_ok d0)
    · intro k hk
      simp at hk
    · intro k status hk hj hs hn
      interval_cases k
      · rw [h0] at hs; cases hs
      · exact absurd (h0 ▸ hj 0 (by norm_num)) (not_retryable_ok d0)
      · exact absurd (h0 ▸ hj 0 (by norm_num)) (not_retryable_ok d0)
    · intro h
      rw [h 0 (by norm_num)] at h0
      cases h0
  | error s0 =>
    by_cases r0 : s0 = some 500 ∨ s0 = some 503
    · simp only [r0, if_true]
      rw [detailLoop_two]
      cases h1 : answers 1 with
      | ok d1 =>
        refine ⟨by simp, by simp, by simp, ?_, ?_, ?_, ?_⟩
        · intro k d hk hj hd
          interval_cases k
          · rw [h0] at hd; cases hd
          · rw [h1] at hd; cases hd; simp
          · exact absurd (h1 ▸ hj 1 (by norm_num)) (not_retryable_ok d1)
        · intro k hk
          have hk0 : k = 0 := by simp at hk; omega
          rw [hk0, h0]
          exact (retryable_error s0).2 r0
        · intro k status hk hj hs hn
          interval_cases k
          · rw [h0] at hs; cases hs; exact absurd ((retryable_error s0).2 r0) hn
          · rw [h1] at hs; cases hs
          · exact absurd (h1 ▸ hj 1 (by norm_num)) (not_retryable_ok d1)
        · intro h
          rw [h 1 (by norm_num)] at h1
          cases h1
      | error s1 =>
        by_cases r1 : s1 = some 500 ∨ s1 = some 503
        · simp only [r1, if_true]
          rw [detailLoop_three]
          have hlen : ∀ x : Nat × DetailResult,
              x = (match answers 2 with
                | .ok d => (3, DetailResult.data d)
                | .error _ => (3, DetailResult.null)) → x.1 = 3 := by
            intro x hx
            rw [hx]
            cases answers 2 <;> rfl
          cases h2 : answers 2 with
          | ok d2 =>
            refine ⟨by simp, by simp, by simp, ?_, ?_, ?_, ?_⟩
            · intro k d hk hj hd
              interval_cases k
              · rw [h0] at hd; cases hd
              · rw [h1] at hd; cases hd
              · rw [h2] at hd; cases hd; simp
            · intro k hk
              have hk0 : k = 0 ∨ k = 1 := by simp at hk; omega
              rcases hk0 with rfl | rfl
              · rw [h0]; exact (retryable_error s0).2 r0
              · rw [h1]; exact (retryable_error s1).2 r1
            · intro k status hk hj hs hn
              interval_cases k
              · rw [h0] at hs; cases hs; exact absurd ((retryable_error s0).2 r0) hn
              · rw [h1] at hs; cases hs; exact absurd ((retryable_error s1).2 r1) hn
              · rw [h2] at hs; cases hs
            · intro h
              rw [h 2 (by norm_num)] at h2
              cases h2
          | error s2 =>
            refine ⟨by simp, by simp, by simp, ?_, ?_, ?_, ?_⟩
            · intro k d hk hj hd
              interval_cases k
              · rw [h0] at hd; cases hd
              · rw [h1] at hd; cases hd
              · rw [h2] at hd; cases hd
            · intro k hk
              have hk0 : k = 0 ∨ k = 1 := by simp at hk; omega
              rcases hk0 with rfl | rfl
              · rw [h0]; exact (retryable_error s0).2 r0
              · rw [h1]; exact (retryable_error s1).2 r1
            · intro k status hk hj hs hn
              interval_cases k
              · rw [h0] at hs; cases hs; exact absurd ((retryable_error s0).2 r0) hn
              · rw [h1] at hs; cases hs; exact absurd ((retryable_error s1).2 r1) hn
              · simp
            · intro _
              simp
        · simp only [r1, if_false]
          refine ⟨by simp, by simp, by simp, ?_, ?_, ?_, ?_⟩
          · intro k d hk hj hd
            interval_cases k
            · rw [h0] at hd; cases hd
            · rw [h1] at hd; cases hd
            · exact absurd ((retryable_error s1).1 (h1 ▸ hj 1 (by norm_num))) r1
          · intro k hk
            have hk0 : k = 0 := by omega
            rw [hk0, h0]
            exact (retryable_error s0).2 r0
          · intro k status hk hj hs hn
            interval_cases k
            · rw [h0] at hs; cases hs; exact absurd ((retryable_error s0).2 r0) hn
            · simp
            · exact absurd ((retryable_error s1).1 (h1 ▸ hj 1 (by norm_num))) r1
          · intro h
            rw [h 1 (by norm_num)] at h1
            cases h1
            exact absurd (Or.inr rfl) r1
    · simp only [r0, if_false]
      refine ⟨by simp, by simp, by simp, ?_, ?_, ?_, ?_⟩
      · intro k d hk hj hd
        interval_cases k
        · rw [h0] at hd; cases hd
        · exact absurd ((retryable_error s0).1 (h0 ▸ hj 0 (by norm_num))) r0
        · exact absurd ((retryable_error s0).1 (h0 ▸ hj 0 (by norm_num))) r0
      · intro k hk
        simp at hk
      · intro k status hk hj hs hn
        interval_cases k
        · simp
        · exact absurd ((retryable_error s0).1 (h0 ▸ hj 0 (by norm_num))) r0
        · exact absurd ((retryable_error s0).1 (h0 ▸ hj 0 (by norm_num))) r0
      · intro h
        rw [h 0 (by norm_num)] at h0
        cases h0
        exact absurd (Or.inr rfl) r0

theorem nextPageInfo_of_namesNext (urlPageInfo : String → UrlResult) (page : ChainPage)
    (h : NamesNext urlPageInfo page) :
    nextPageInfo urlPageInfo (some page.link) = .pageInfo (some page.cursor) := by
  obtain ⟨target, hm, hu, _⟩ := h
  have hne : page.link ≠ "" := by
    intro he
    rw [he] at hm
    simp [matchNext] at hm
  simp [nextPageInfo, truthy, hne, hm, hu]

theorem nextPageInfo_of_noNext (urlPageInfo : String → UrlResult) (link : Option String)
    (h : NoNext link) : nextPageInfo urlPageInfo link = .pageInfo none := by
  rcases h with h | ⟨header, h, hm⟩
  · simp [h, nextPageInfo, truthy]
  · by_cases hne : header = ""
    · simp [h, hne, nextPageInfo, truthy]
    · simp [h, hne, nextPageInfo, truthy, hm]

theorem shopifyPageLoop_chain (urlPageInfo : String → UrlResult) (fields : String)
    (front : List ChainPage) (lastProducts : List ShopifyProduct) (lastLink : Option String)
    (hfront : ∀ page ∈ front, NamesNext urlPageInfo page) (hlast : NoNext lastLink)
    (allProducts : List ShopifyProduct) (pageInfo : Option String) :
    shopifyPageLoop urlPageInfo fields
        (front.map (fun page => .ok page.products (some page.link)) ++
          [.ok lastProducts lastLink]) allProducts pageInfo
      = ⟨(pageInfo :: front.map (fun page => some page.cursor)).map (pageUrl fields),
          some (allProducts ++ front.flatMap (fun page => page.products) ++ lastProducts)⟩ := by
  induction front generalizing allProducts pageInfo with
  | nil =>
    simp [shopifyPageLoop, nextPageInfo_of_noNext urlPageInfo lastLink hlast, truthy]
  | cons page rest ih =>
    have hp := hfront page (List.mem_cons_self _ _)
    have hc : truthy (some page.cursor) = true := by
      obtain ⟨_, _, _, hne⟩ := hp
      simp [truthy, hne]
    have hrest : ∀ q ∈ rest, NamesNext urlPageInfo q :=
      fun q hq => hfront q (List.mem_cons_of_mem _ hq)
    simp only [List.map_cons, List.cons_append, shopifyPageLoop,
      nextPageInfo_of_namesNext urlPageInfo page hp, hc, if_true]
    rw [List.append_eq, ih hrest]
    simp [FetchOutcome.after, List.flatMap_cons, List.append_assoc]

/-- Claim C6.  For a chain of `front.length + 1` pages that are all answered successfully,
each page of `front` carrying a `link` header whose `rel="next"` target names the cursor of
the page after it and the last page carrying no such relation, `fetchAllShopifyProducts`
issues exactly one request per page, in chain order (the first without a cursor, then one
for each named cursor), and returns the product lists of the pages concatenated in that
order. -/
theorem fetchAll_follows_chain (urlPageInfo : String → UrlResult)
    (front : List ChainPage) (lastProducts : List ShopifyProduct) (lastLink : Option String)
    (hfront : ∀ page ∈ front, NamesNext urlPageInfo page) (hlast : NoNext lastLink) :
    (fetchAllShopifyProducts urlPageInfo
        (front.map (fun page => .ok page.products (some page.link)) ++
          [.ok lastProducts lastLink])).requests
      = (none :: front.map (fun page => some page.cursor)).map (pageUrl "id,variants,images") ∧
    (fetchAllShopifyProducts urlPageInfo
        (front.map (fun page => .ok page.products (some page.link)) ++
          [.ok lastProducts lastLink])).requests.length = front.length + 1 ∧
    (fetchAllShopifyProducts urlPageInfo
        (front.map (fun page => .ok page.products (some page.link)) ++
          [.ok lastProducts lastLink])).result
      = some (front.flatMap (fun page => page.products) ++ lastProducts) := by
  unfold fetchAllShopifyProducts
  rw [shopifyPageLoop_chain urlPageInfo "id,variants,images" front lastProducts lastLink
    hfront hlast [] none]
  simp

/-- Claim C6 for a chain of two pages, the first naming the cursor `abc`. -/
theorem fetchAll_follows_chain_witness :
    (fetchAllShopifyProducts afterEquals
        [.ok [⟨1, [⟨some "A"⟩]⟩] (some linkToAbc), .ok [⟨2, [⟨some "B"⟩]⟩] none]).requests
      = ["/products.json?fields=id,variants,images&limit=250",
         "/products.json?fields=id,variants,images&limit=250&page_info=abc"] ∧
    (fetchAllShopifyProducts afterEquals
        [.ok [⟨1, [⟨some "A"⟩]⟩] (some linkToAbc), .ok [⟨2, [⟨some "B"⟩]⟩] none]).result
      = some [⟨1, [⟨some "A"⟩]⟩, ⟨2, [⟨some "B"⟩]⟩] := by
  have h := fetchAll_follows_chain afterEquals [⟨[⟨1, [⟨some "A"⟩]⟩], linkToAbc, "abc"⟩]
    [⟨2, [⟨some "B"⟩]⟩] none
    (by
      intro page hpage
      rw [List.mem_singleton] at hpage
      rw [hpage]
      exact ⟨"https://shop.example/products.json?page_info=abc".data, by decide, by decide,
        by decide⟩)
    (Or.inl rfl)
  exact ⟨h.1, h.2.2⟩

theorem cosmoPageLoop_keeps (script : List CosmoListResponse) :
    ∀ (allProducts : List CosmoItem) (nextPageUrl : String) (products : List CosmoItem),
      (∀ p ∈ allProducts, keepItem p = true) →
      (cosmoPageLoop script allProducts nextPageUrl).result = some products →
      ∀ p ∈ products, keepItem p = true := by
  induction script with
  | nil =>
    intro allProducts nextPageUrl products _ h
    simp [cosmoPageLoop] at h
  | cons r rest ih =>
    intro allProducts nextPageUrl products hall h
    cases r with
    | error =>
      simp only [cosmoPageLoop, Option.some.injEq] at h
      rw [← h]
      exact hall
    | ok results nextUrl =>
      have hall2 : ∀ p ∈ allProducts ++ results.filter keepItem, keepItem p = true := by
        intro p hp
        rcases List.mem_append.1 hp with hp | hp
        · exact hall p hp
        · exact (List.mem_filter.1 hp).2
      by_cases ht : truthy nextUrl = true
      · simp only [cosmoPageLoop, ht, if_true, FetchOutcome.after] at h
        exact ih _ _ products hall2 h
      · simp only [cosmoPageLoop, ht, Bool.false_eq_true, if_false, Option.some.injEq] at h
        rw [← h]
        exact hall2

theorem keepItem_not_suffix (p : CosmoItem) (code : String) (hk : keepItem p = true)
    (hc : p.Item = some code) : endsWith code "-A" = false := by
  unfold keepItem at hk
  rw [hc] at hk
  simp at hk
  exact hk.2

theorem processLoop_calls {σ : Type} (sf : Storefront σ) (dist : Distributor)
    (cosmopolitanSKUs shopifySKUs : List (Option String)) (products : List CosmoItem) :
    ∀ (s : σ) (run : RunOutcome σ),
      processLoop sf dist cosmopolitanSKUs shopifySKUs products s = some run →
      ∀ call ∈ run.calls, endsWith call.1 "-A" = false ∧ (⟨some call.1⟩ : CosmoItem) ∈ products := by
  induction products with
  | nil =>
    intro s run h
    simp only [processLoop, Option.some.injEq] at h
    rw [← h]
    simp
  | cons product rest ih =>
    intro s run h call hcall
    have hmem : ∀ c, (⟨some c⟩ : CosmoItem) ∈ rest → (⟨some c⟩ : CosmoItem) ∈ product :: rest :=
      fun c hc => List.mem_cons_of_mem _ hc
    cases hi : product.Item with
    | none => simp [processLoop, hi] at h
    | some code =>
      simp only [processLoop, hi] at h
      by_cases hs : endsWith code "-A" = true
      · rw [if_pos hs] at h
        exact ⟨(ih s run h call hcall).1, hmem _ (ih s run h call hcall).2⟩
      · rw [if_neg hs] at h
        cases hd : (fetchDetailedCosmopolitanProduct code (dist.detail code)).2 with
        | null =>
          rw [hd] at h
          exact ⟨(ih s run h call hcall).1, hmem _ (ih s run h call hcall).2⟩
        | undefined =>
          rw [hd] at h
          exact ⟨(ih s run h call hcall).1, hmem _ (ih s run h call hcall).2⟩
        | data d =>
          rw [hd] at h
          by_cases he : eligible d = true
          · simp only [he, if_true] at h
            cases hc : createOrUpdateShopifyProduct sf d cosmopolitanSKUs shopifySKUs s with
            | none => simp [hc] at h
            | some c =>
              simp only [hc] at h
              cases hr : processLoop sf dist cosmopolitanSKUs shopifySKUs rest c.state with
              | none => simp [hr] at h
              | some r =>
                simp only [hr, Option.map_some', Option.some.injEq] at h
                rw [← h] at hcall
                simp only [List.mem_cons] at hcall
                rcases hcall with hcall | hcall
                · rw [hcall]
                  refine ⟨by simpa using hs, ?_⟩
                  have : product = ⟨some code⟩ := by
                    cases product
                    simp at hi
                    simp [hi]
                  rw [this]
                  exact List.mem_cons_self _ _
                · exact ⟨(ih c.state r hr call hcall).1, hmem _ (ih c.state r hr call hcall).2⟩
          · simp only [he, Bool.false_eq_true, if_false] at h
            exact ⟨(ih s run h call hcall).1, hmem _ (ih s run h call hcall).2⟩

/-- Claim C10.  No item whose code ends with `-A` is in the list returned by
`fetchAllCosmopolitanProducts`, and the loop of `processAllCosmopolitanProducts`, over any
list of products and so over the one a run fetches, never calls
`createOrUpdateShopifyProduct` for a listed product whose code ends with `-A`; the detail
record, with its product line and class, plays no part. -/
theorem reserved_suffix_excluded {σ : Type} (sf : Storefront σ) (dist : Distributor) (s : σ) :
    (∀ products, (fetchAllCosmopolitanProducts dist.listing).result = some products →
      ∀ p ∈ products, ∀ code, p.Item = some code → endsWith code "-A" = false) ∧
    (∀ cosmopolitanSKUs shopifySKUs listed run,
      processLoop sf dist cosmopolitanSKUs shopifySKUs listed s = some run →
      ∀ call ∈ run.calls, endsWith call.1 "-A" = false) ∧
    (∀ run, processAllCosmopolitanProducts sf dist s = some run →
      ∀ call ∈ run.calls, endsWith call.1 "-A" = false) := by
  refine ⟨?_, ?_, ?_⟩
  · intro products h p hp code hc
    exact keepItem_not_suffix p code
      (cosmoPageLoop_keeps dist.listing [] _ products (by simp) h p hp) hc
  · intro cosmo shop listed run h call hcall
    exact (processLoop_calls sf dist cosmo shop listed s run h call hcall).1
  · intro run h call hcall
    unfold processAllCosmopolitanProducts at h
    cases h1 : (fetchAllCosmopolitanProducts dist.listing).result with
    | none => simp [h1] at h
    | some products =>
      cases h2 : (fetchAllShopifyProducts sf.urlPageInfo (sf.pages s)).result with
      | none => simp [h1, h2] at h
      | some allShopifyProducts =>
        simp only [h1, h2] at h
        exact (processLoop_calls sf dist _ _ products s run h call hcall).1

theorem twoItem_detail :
    (fetchDetailedCosmopolitanProduct "X100" (twoItemDistributor.detail "X100")).2
      = .data x100 := by
  simp [fetchDetailedCosmopolitanProduct, twoItemDistributor, detailLoop_one]

theorem twoItem_run :
    processAllCosmopolitanProducts listStorefront twoItemDistributor []
      = some ⟨[("X100", x100)], [.post (createData x100)], [⟨1, [⟨some "X100"⟩]⟩]⟩ := by
  have hx : eligible x100 = true := by decide
  have hs : endsWith "X100" "-A" = false := by decide
  have hc : createOrUpdateShopifyProduct listStorefront x100 [some "X100"] [] []
      = some ⟨.create, [.post (createData x100)], [⟨1, [⟨some "X100"⟩]⟩]⟩ := by
    rfl
  have hl : (fetchAllCosmopolitanProducts twoItemDistributor.listing).result
      = some [⟨some "X100"⟩] := by decide
  have hp : (fetchAllShopifyProducts listStorefront.urlPageInfo (listStorefront.pages [])).result
      = some [] := by decide
  unfold processAllCosmopolitanProducts
  rw [hl, hp]
  simp only [List.map, List.flatMap_nil, processLoop, hs, twoItem_detail, hx, hc]
  simp

/-- Claim C10 for a distributor listing `X100` and `Y-A`: the run calls
`createOrUpdateShopifyProduct` for `X100` only. -/
theorem reserved_suffix_excluded_witness :
    ∃ run, processAllCosmopolitanProducts listStorefront twoItemDistributor [] = some run ∧
      run.calls = [("X100", x100)] ∧ ∀ call ∈ run.calls, endsWith call.1 "-A" = false :=
  ⟨_, twoItem_run, rfl,
    (reserved_suffix_excluded listStorefront twoItemDistributor []).2.2 _ twoItem_run⟩

theorem listStorefront_fetchAll (s : List ShopifyProduct) :
    (fetchAllShopifyProducts listStorefront.urlPageInfo (listStorefront.pages s)).result
      = some s := by
  simp [fetchAllShopifyProducts, listStorefront, shopifyPageLoop, nextPageInfo, truthy]

theorem listStorefront_createOrUpdate (d : Detail)
    (cosmopolitanSKUs shopifySKUs : List (Option String)) (s : List ShopifyProduct) :
    createOrUpdateShopifyProduct listStorefront d cosmopolitanSKUs shopifySKUs s
      = some (decideWrite listStorefront d cosmopolitanSKUs shopifySKUs
          (firstWithSku s d.Item) s) := by
  simp [createOrUpdateShopifyProduct, findShopifyProductBySKU, listStorefront,
    shopifyPageLoop, nextPageInfo, truthy]

theorem mem_skusOf_of_firstWithSku_none (s : List ShopifyProduct) (sku : String)
    (h : firstWithSku s sku = none) : some sku ∉ skusOf s := by
  unfold firstWithSku at h
  rw [List.find?_eq_none] at h
  intro hmem
  unfold skusOf at hmem
  rw [List.mem_flatMap] at hmem
  obtain ⟨product, hp, hv⟩ := hmem
  rw [List.mem_map] at hv
  obtain ⟨v, hv, hsku⟩ := hv
  apply h product hp
  rw [List.any_eq_true]
  exact ⟨v, hv, by simp [hsku]⟩

theorem skusOf_append (s t : List ShopifyProduct) : skusOf (s ++ t) = skusOf s ++ skusOf t := by
  simp [skusOf, List.flatMap_append]

theorem decideWrite_create {σ : Type} (sf : Storefront σ) (d : Detail)
    (cosmopolitanSKUs shopifySKUs : List (Option String)) (s : σ)
    (hc : some d.Item ∈ cosmopolitanSKUs) (hs : some d.Item ∉ shopifySKUs) :
    decideWrite sf d cosmopolitanSKUs shopifySKUs none s
      = ⟨.create, [.post (createData d)], sf.post (createData d) s⟩ := by
  simp [decideWrite, hc, hs]

theorem decideWrite_state_mono (d : Detail) (cosmopolitanSKUs shopifySKUs : List (Option String))
    (existingProduct : Option ShopifyProduct) (s : List ShopifyProduct) (x : Option String)
    (hx : x ∈ skusOf s) :
    x ∈ skusOf (decideWrite listStorefront d cosmopolitanSKUs shopifySKUs existingProduct s).state := by
  unfold decideWrite
  cases existingProduct with
  | some p => simpa [productId, listStorefront] using hx
  | none =>
    by_cases hc : some d.Item ∈ cosmopolitanSKUs
    · by_cases hs : some d.Item ∈ shopifySKUs
      · simpa [productId, hc, hs] using hx
      · have h := decideWrite_create listStorefront d cosmopolitanSKUs shopifySKUs s hc hs
        unfold decideWrite at h
        rw [h]
        show x ∈ skusOf (s ++ _)
        rw [skusOf_append]
        exact List.mem_append_left _ hx
    · simpa [productId, hc] using hx

theorem decideWrite_state_has (d : Detail) (cosmopolitanSKUs shopifySKUs : List (Option String))
    (s : List ShopifyProduct) (hc : some d.Item ∈ cosmopolitanSKUs)
    (hs : some d.Item ∉ shopifySKUs) :
    some d.Item ∈ skusOf (decideWrite listStorefront d cosmopolitanSKUs shopifySKUs none s).state := by
  rw [decideWrite_create listStorefront d cosmopolitanSKUs shopifySKUs s hc hs]
  show some d.Item ∈ skusOf (s ++ _)
  rw [skusOf_append]
  apply List.mem_append_right
  simp [skusOf, createData, productData, variantData]

theorem decideWrite_writes (d : Detail) (cosmopolitanSKUs shopifySKUs : List (Option String))
    (existingProduct : Option ShopifyProduct) (s : List ShopifyProduct)
    (h : some d.Item ∈ cosmopolitanSKUs → some d.Item ∈ shopifySKUs) :
    ∀ w ∈ (decideWrite listStorefront d cosmopolitanSKUs shopifySKUs existingProduct s).writes,
      ∃ id detail, w = .put id (updateData detail) := by
  intro w hw
  unfold decideWrite at hw
  cases existingProduct with
  | some p =>
    simp [productId] at hw
    exact ⟨p.id, d, hw⟩
  | none =>
    by_cases hc : some d.Item ∈ cosmopolitanSKUs
    · simp [productId, hc, h hc] at hw
    · simp [productId, hc] at hw

theorem processLoop_first_run (dist : Distributor)
    (cosmopolitanSKUs shopifySKUs : List (Option String)) (products : List CosmoItem) :
    ∀ (s : List ShopifyProduct) (run : RunOutcome (List ShopifyProduct)),
      processLoop listStorefront dist cosmopolitanSKUs shopifySKUs products s = some run →
      (∀ x ∈ shopifySKUs, x ∈ skusOf s) →
      (∀ x ∈ skusOf s, x ∈ skusOf run.state) ∧
      (∀ product ∈ products, ∃ code, product.Item = some code) ∧
      (∀ product ∈ products, ∀ code d, product.Item = some code →
        endsWith code "-A" = false →
        (fetchDetailedCosmopolitanProduct code (dist.detail code)).2 = .data d →
        eligible d = true → some d.Item ∈ cosmopolitanSKUs →
        some d.Item ∈ skusOf run.state) := by
  induction products with
  | nil =>
    intro s run h _
    simp only [processLoop, Option.some.injEq] at h
    rw [← h]
    simp
  | cons product rest ih =>
    intro s run h hshop
    cases hi : product.Item with
    | none => simp [processLoop, hi] at h
    | some code =>
      simp only [processLoop, hi] at h
      -- the three ways in which the loop moves on without a call
      have skip : processLoop listStorefront dist cosmopolitanSKUs shopifySKUs rest s = some run →
          (∀ d, endsWith code "-A" = false →
            (fetchDetailedCosmopolitanProduct code (dist.detail code)).2 = .data d →
            eligible d = true → False) →
          (∀ x ∈ skusOf s, x ∈ skusOf run.state) ∧
          (∀ p ∈ product :: rest, ∃ c, p.Item = some c) ∧
          (∀ p ∈ product :: rest, ∀ c d, p.Item = some c → endsWith c "-A" = false →
            (fetchDetailedCosmopolitanProduct c (dist.detail c)).2 = .data d →
            eligible d = true → some d.Item ∈ cosmopolitanSKUs →
            some d.Item ∈ skusOf run.state) := by
        intro hrest hno
        obtain ⟨h1, h2, h3⟩ := ih s run hrest hshop
        refine ⟨h1, ?_, ?_⟩
        · intro p hp
          rcases List.mem_cons.1 hp with hp | hp
          · exact ⟨code, hp ▸ hi⟩
          · exact h2 p hp
        · intro p hp c d hc hs hd he hcos
          rcases List.mem_cons.1 hp with hp | hp
          · rw [hp, hi] at hc
            cases hc
            exact (hno d hs hd he).elim
          · exact h3 p hp c d hc hs hd he hcos
      by_cases hs : endsWith code "-A" = true
      · rw [if_pos hs] at h
        exact skip h (fun d hs2 _ _ => by rw [hs] at hs2; cases hs2)
      · rw [if_neg hs] at h
        cases hd : (fetchDetailedCosmopolitanProduct code (dist.detail code)).2 with
        | null =>
          rw [hd] at h
          exact skip h (fun d _ hd2 _ => by rw [hd] at hd2; cases hd2)
        | undefined =>
          rw [hd] at h
          exact skip h (fun d _ hd2 _ => by rw [hd] at hd2; cases hd2)
        | data d0 =>
          rw [hd] at h
          by_cases he : eligible d0 = true
          · simp only [he, if_true, listStorefront_createOrUpdate] at h
            cases hr : processLoop listStorefront dist cosmopolitanSKUs shopifySKUs rest
                (decideWrite listStorefront d0 cosmopolitanSKUs shopifySKUs
                  (firstWithSku s d0.Item) s).state with
            | none => simp [hr] at h
            | some r =>
              simp only [hr, Option.map_some', Option.some.injEq] at h
              have hmono := decideWrite_state_mono d0 cosmopolitanSKUs shopifySKUs
                (firstWithSku s d0.Item) s
              obtain ⟨h1, h2, h3⟩ := ih _ r hr (fun x hx => hmono x (hshop x hx))
              have hstate : run.state = r.state := by rw [← h]
              rw [hstate]
              refine ⟨fun x hx => h1 x (hmono x hx), ?_, ?_⟩
              · intro p hp
                rcases List.mem_cons.1 hp with hp | hp
                · exact ⟨code, hp ▸ hi⟩
                · exact h2 p hp
              · intro p hp c d hc hs2 hd2 he2 hcos
                rcases List.mem_cons.1 hp with hp | hp
                · rw [hp, hi] at hc
                  cases hc
                  rw [hd] at hd2
                  cases hd2
                  apply h1
                  cases hf : firstWithSku s d0.Item with
                  | some found =>
                    apply decideWrite_state_mono
                    by_contra hnot
                    by_cases hin : some d0.Item ∈ skusOf s
                    · exact hnot hin
                    · have : firstWithSku s d0.Item = none := by
                        unfold firstWithSku
                        rw [List.find?_eq_none]
                        intro product hproduct hany
                        apply hin
                        rw [List.any_eq_true] at hany
                        obtain ⟨v, hv, hsku⟩ := hany
                        unfold skusOf
                        rw [List.mem_flatMap]
                        exact ⟨product, hproduct, List.mem_map.2 ⟨v, hv, by simpa using hsku⟩⟩
                      rw [this] at hf
                      cases hf
                  | none =>
                    by_cases hin : some d0.Item ∈ shopifySKUs
                    · exact absurd (hshop _ hin) (mem_skusOf_of_firstWithSku_none s d0.Item hf)
                    · exact decideWrite_state_has d0 cosmopolitanSKUs shopifySKUs s hcos hin
                · exact h3 p hp c d hc hs2 hd2 he2 hcos
          · simp only [he, Bool.false_eq_true, if_false] at h
            exact skip h (fun d _ hd2 he2 => by
              rw [hd] at hd2
              cases hd2
              exact he he2)

theorem processLoop_second_run (dist : Distributor)
    (cosmopolitanSKUs shopifySKUs : List (Option String)) (products : List CosmoItem) :
    ∀ (t : List ShopifyProduct),
      (∀ product ∈ products, ∃ code, product.Item = some code) →
      (∀ product ∈ products, ∀ code d, product.Item = some code →
        endsWith code "-A" = false →
        (fetchDetailedCosmopolitanProduct code (dist.detail code)).2 = .data d →
        eligible d = true → some d.Item ∈ cosmopolitanSKUs → some d.Item ∈ shopifySKUs) →
      ∃ run, processLoop listStorefront dist cosmopolitanSKUs shopifySKUs products t = some run ∧
        ∀ w ∈ run.writes, ∃ id detail, w = .put id (updateData detail) := by
  induction products with
  | nil =>
    intro t _ _
    exact ⟨⟨[], [], t⟩, rfl, by simp⟩
  | cons product rest ih =>
    intro t hitems hsnap
    obtain ⟨code, hi⟩ := hitems product (List.mem_cons_self _ _)
    have hitems2 : ∀ p ∈ rest, ∃ c, p.Item = some c :=
      fun p hp => hitems p (List.mem_cons_of_mem _ hp)
    have hsnap2 : ∀ p ∈ rest, ∀ c d, p.Item = some c → endsWith c "-A" = false →
        (fetchDetailedCosmopolitanProduct c (dist.detail c)).2 = .data d →
        eligible d = true → some d.Item ∈ cosmopolitanSKUs → some d.Item ∈ shopifySKUs :=
      fun p hp => hsnap p (List.mem_cons_of_mem _ hp)
    simp only [processLoop, hi]
    by_cases hs : endsWith code "-A" = true
    · rw [if_pos hs]
      exact ih t hitems2 hsnap2
    · rw [if_neg hs]
      cases hd : (fetchDetailedCosmopolitanProduct code (dist.detail code)).2 with
      | null => exact ih t hitems2 hsnap2
      | undefined => exact ih t hitems2 hsnap2
      | data d0 =>
        by_cases he : eligible d0 = true
        · simp only [he, if_true, listStorefront_createOrUpdate]
          obtain ⟨r, hr, hw⟩ := ih (decideWrite listStorefront d0 cosmopolitanSKUs shopifySKUs
            (firstWithSku t d0.Item) t).state hitems2 hsnap2
          refine ⟨_, by rw [hr]; rfl, ?_⟩
          intro w hmem
          rcases List.mem_append.1 hmem with hmem | hmem
          · exact decideWrite_writes d0 cosmopolitanSKUs shopifySKUs _ t
              (hsnap product (List.mem_cons_self _ _) code d0 hi (by simpa using hs) hd he)
              w hmem
          · exact hw w hmem
        · simp only [he, Bool.false_eq_true, if_false]
          exact ih t hitems2 hsnap2

/-- Claim C4.  On the storefront `listStorefront`, once a run of
`processAllCosmopolitanProducts` has completed, a second run against the same distributor,
started in the state the first one left, completes as well and sends no `POST`: each of its
write requests is a `PUT` that carries the update payload. -/
theorem second_run_creates_nothing (dist : Distributor) (s0 : List ShopifyProduct)
    (run1 : RunOutcome (List ShopifyProduct))
    (h1 : processAllCosmopolitanProducts listStorefront dist s0 = some run1) :
    ∃ run2, processAllCosmopolitanProducts listStorefront dist run1.state = some run2 ∧
      (∀ w ∈ run2.writes, ∀ data, w ≠ .post data) ∧
      (∀ w ∈ run2.writes, ∃ id detail, w = .put id (updateData detail)) := by
  unfold processAllCosmopolitanProducts at h1 ⊢
  cases hl : (fetchAllCosmopolitanProducts dist.listing).result with
  | none => simp [hl] at h1
  | some products =>
    simp only [hl, listStorefront_fetchAll] at h1 ⊢
    obtain ⟨_, hitems, hcalled⟩ := processLoop_first_run dist _ _ products s0 run1 h1
      (fun x hx => hx)
    obtain ⟨run2, h2, hw⟩ := processLoop_second_run dist
      (products.map (fun product => product.Item)) (skusOf run1.state) products run1.state
      hitems hcalled
    refine ⟨run2, h2, ?_, hw⟩
    intro w hmem data hpost
    obtain ⟨id, detail, hput⟩ := hw w hmem
    rw [hput] at hpost
    cases hpost

/-- Claim C4 for the distributor listing `X100` and `Y-A` and an initially empty storefront:
the first run creates `X100`, the second creates nothing. -/
theorem second_run_creates_nothing_witness :
    ∃ run2, processAllCosmopolitanProducts listStorefront twoItemDistributor
        [⟨1, [⟨some "X100"⟩]⟩] = some run2 ∧
      (∀ w ∈ run2.writes, ∀ data, w ≠ .post data) ∧
      (∀ w ∈ run2.writes, ∃ id detail, w = .put id (updateData detail)) :=
  second_run_creates_nothing twoItemDistributor []
    ⟨[("X100", x100)], [.post (createData x100)], [⟨1, [⟨some "X100"⟩]⟩]⟩ twoItem_run

end ProductFunctions
